import Mathlib

/-!
Verification development for the Medical-NLP-Pipeline repository
(single source file: src/medical_pipeline.py, class PhysicianNotetakerPipeline).

The Python source is shallowly embedded below.  Text is modelled as `String`
(lists of characters); the two external model capabilities (the zero-shot
classifier and the text generator) are opaque function parameters, and each
invocation of a capability is recorded in an explicit trace component of the
result, so that claims about the number of external calls are statable.
Regular-expression operations in the source are all on literal patterns
(alternations of literals, one `.+` gap, one `\s*(.*)` capture scan); each is
translated into an explicit character-level scanning function.
-/

/-- ASCII whitespace characters, the characters matched by Python regex
class for whitespace on ASCII text (space, tab, newline, carriage return,
vertical tab, form feed). -/
def isWsChar (c : Char) : Bool :=
  c == ' ' || c == '\t' || c == '\n' || c == '\r' || c == '\x0b' || c == '\x0c'

/-- Does the text start with the literal pattern (case-sensitive)? -/
def litStarts : List Char → List Char → Bool
  | [], _ => true
  | _ :: _, [] => false
  | p :: ps, c :: cs => (p == c) && litStarts ps cs

/-- Does the text start with the literal pattern, comparing characters
case-insensitively (Python re.IGNORECASE on an ASCII literal pattern)? -/
def ciStarts : List Char → List Char → Bool
  | [], _ => true
  | _ :: _, [] => false
  | p :: ps, c :: cs => (Char.toLower p == Char.toLower c) && ciStarts ps cs

/-- Substring containment: Python `pat in text`. -/
def containsSub (pat : List Char) : List Char → Bool
  | [] => litStarts pat []
  | c :: cs => litStarts pat (c :: cs) || containsSub pat cs

/-- One or more non-newline characters followed by the literal `pat`:
the regex fragment `.+pat` (no DOTALL, so `.` excludes the newline). -/
def dotPlusThen (pat : List Char) : List Char → Bool
  | [] => false
  | c :: cs => (c != '\n') && (litStarts pat cs || dotPlusThen pat cs)

/-- `re.search` truth value of the pattern `pre.+pat`: some position starts
with the literal `pre`, followed by at least one non-newline character and
then the literal `pat`. -/
def searchDotPlus (pre pat : List Char) : List Char → Bool
  | [] => false
  | c :: cs =>
    (litStarts pre (c :: cs) && dotPlusThen pat ((c :: cs).drop pre.length)) ||
      searchDotPlus pre pat cs

/-- Remove the characters satisfying `p` from both ends
(Python str.strip with a given character class). -/
def stripBoth (p : Char → Bool) (l : List Char) : List Char :=
  ((l.dropWhile p).reverse.dropWhile p).reverse

/-- Python `str.strip()` on the character list. -/
def stripChars (l : List Char) : List Char :=
  stripBoth isWsChar l

/-- Python `str.lower()` on the character list (ASCII case folding). -/
def lowerList (l : List Char) : List Char :=
  l.map Char.toLower

/-! ### Task 1: rule-based medical summary (lines 31-54 of the source)

The eight rule conditions of `generate_medical_summary`, evaluated on the
lowercased transcript.  Lines 46-48 use `re.search(..., re.IGNORECASE)` on
literal alternations (with one `.+` gap); lines 49-53 use
`... in transcript.lower()`.  Both are containment tests on the lowercased
text. -/

/-- Line 46: `re.search(r"pain in my neck|neck pain", transcript, re.IGNORECASE)`. -/
def condNeck (low : List Char) : Bool :=
  containsSub ("pain in my neck".data) low || containsSub ("neck pain".data) low

/-- Line 47: `re.search(r"pain in my.+back|back pain", transcript, re.IGNORECASE)`. -/
def condBack (low : List Char) : Bool :=
  searchDotPlus ("pain in my".data) ("back".data) low || containsSub ("back pain".data) low

/-- Line 48: `re.search(r"hit my head", transcript, re.IGNORECASE)`. -/
def condHead (low : List Char) : Bool :=
  containsSub ("hit my head".data) low

/-- Line 49: `"whiplash injury" in transcript.lower()`. -/
def condWhiplash (low : List Char) : Bool :=
  containsSub ("whiplash injury".data) low

/-- Line 50: `"ten sessions of physiotherapy" in transcript.lower()`. -/
def condPhysio (low : List Char) : Bool :=
  containsSub ("ten sessions of physiotherapy".data) low

/-- Line 51: `"painkillers" in transcript.lower()`. -/
def condPainkillers (low : List Char) : Bool :=
  containsSub ("painkillers".data) low

/-- Line 52: `"occasional backaches" in transcript.lower()`. -/
def condBackaches (low : List Char) : Bool :=
  containsSub ("occasional backaches".data) low

/-- Line 53: `"full recovery within six months" in transcript.lower()`. -/
def condRecovery (low : List Char) : Bool :=
  containsSub ("full recovery within six months".data) low

/-- The summary record built by `generate_medical_summary` (lines 37-44). -/
structure MedicalSummary where
  Patient_Name : String
  Symptoms : List String
  Diagnosis : String
  Treatment : List String
  Current_Status : String
  Prognosis : String
deriving DecidableEq

/-- `generate_medical_summary` (lines 31-54): start from the default record,
then apply the eight rule checks in the fixed source order, appending to the
list fields and overwriting the string fields on match. -/
def generate_medical_summary (transcript : String) : MedicalSummary :=
  let low := lowerList transcript.data
  let summary : MedicalSummary :=
    { Patient_Name := "Ms. Jones", Symptoms := [], Diagnosis := "Not mentioned",
      Treatment := [], Current_Status := "Not mentioned", Prognosis := "Not mentioned" }
  let summary := if condNeck low then
    { summary with Symptoms := summary.Symptoms ++ ["Neck pain"] } else summary
  let summary := if condBack low then
    { summary with Symptoms := summary.Symptoms ++ ["Back pain"] } else summary
  let summary := if condHead low then
    { summary with Symptoms := summary.Symptoms ++ ["Head impact"] } else summary
  let summary := if condWhiplash low then
    { summary with Diagnosis := "Whiplash injury" } else summary
  let summary := if condPhysio low then
    { summary with Treatment := summary.Treatment ++ ["10 physiotherapy sessions"] } else summary
  let summary := if condPainkillers low then
    { summary with Treatment := summary.Treatment ++ ["Painkillers"] } else summary
  let summary := if condBackaches low then
    { summary with Current_Status := "Occasional backaches" } else summary
  let summary := if condRecovery low then
    { summary with Prognosis := "Full recovery expected within six months" } else summary
  summary

/-! ### Speaker-line extraction (lines 63 and 79-82 of the source)

`re.findall(rf"{speaker}:\s*(.*)", transcript, re.IGNORECASE)`: scan left to
right; at the first position where the literal `speaker:` matches
case-insensitively, consume it, greedily consume whitespace (which may cross
newlines, since Python whitespace class includes the newline), capture the
following characters up to the next newline or the end of the text, and
resume scanning right after the capture.  The scan is non-overlapping, as
`re.findall` is.  The fuel argument bounds the recursion; it is instantiated
with the text length, which each step strictly decreases by at least one, so
the scan is exact. -/
def scanSpeaker (label : List Char) : Nat → List Char → List String
  | _, [] => []
  | 0, _ :: _ => []
  | fuel + 1, c :: cs =>
    if ciStarts label (c :: cs) then
      let afterLabel := (c :: cs).drop label.length
      let afterWs := afterLabel.dropWhile isWsChar
      let captured := afterWs.takeWhile (fun ch => ch != '\n')
      (⟨captured⟩ : String) :: scanSpeaker label fuel (afterWs.dropWhile (fun ch => ch != '\n'))
    else
      scanSpeaker label fuel cs

/-- All captured utterances of the given speaker, in transcript order. -/
def findallSpeaker (speaker : String) (t : String) : List String :=
  scanSpeaker (speaker.data ++ [':']) t.data.length t.data

/-- Line 63: `re.findall(r"Patient:\s*(.*)", transcript, re.IGNORECASE)`. -/
def patientLines (t : String) : List String :=
  findallSpeaker "Patient" t

/-- `_get_dialogue_by_speaker` (lines 79-82): join the speaker lines with
single spaces. -/
def getDialogueBySpeaker (t : String) (speaker : String) : String :=
  String.intercalate " " (findallSpeaker speaker t)

/-! ### Task 2: sentiment and intent analysis (lines 57-76 of the source) -/

/-- The keyword list of line 70. -/
def sentimentKeywords : List String :=
  ["worried", "scared", "relief", "great", "rough"]

/-- Line 70: `any(word in line.lower() for word in [...])`. -/
def hasKeyword (line : String) : Bool :=
  sentimentKeywords.any fun w => containsSub w.data (lowerList line.data)

/-- The loop of lines 68-72: the default is the last patient line; the first
line containing a keyword overrides it and stops the scan. -/
def selectLoop (dflt : String) : List String → String
  | [] => dflt
  | line :: rest => if hasKeyword line then line else selectLoop dflt rest

/-- Label set of the first classifier call (line 74). -/
def sentimentLabels : List String :=
  ["Anxious", "Neutral", "Reassured", "Concerned"]

/-- Label set of the second classifier call (line 75). -/
def intentLabels : List String :=
  ["Seeking reassurance", "Reporting symptoms", "Expressing relief"]

/-- The successful result dictionary of line 76. -/
structure SentimentResult where
  Analyzed_Line : String
  Sentiment : String
  Intent : String
deriving DecidableEq

/-- The sentiment stage returns either the error dictionary of line 65
(an error field, no exception) or the result dictionary of line 76. -/
inductive SentimentOut where
  | err (msg : String)
  | ok (r : SentimentResult)
deriving DecidableEq

/-- `analyze_sentiment_intent` (lines 57-76).  The zero-shot classifier is an
opaque parameter `cls` mapping (text, candidate labels) to the top-ranked
label; the second component of the result records the sequence of classifier
invocations actually made, so call counts are observable. -/
def analyze_sentiment_intent (cls : String → List String → String) (t : String) :
    SentimentOut × List (String × List String) :=
  let patient_lines := patientLines t
  if patient_lines = [] then
    (SentimentOut.err "No patient dialogue found.", [])
  else
    let expressive_line := selectLoop (patient_lines.getLastD "") patient_lines
    let sentiment := cls expressive_line sentimentLabels
    let intent := cls expressive_line intentLabels
    (SentimentOut.ok { Analyzed_Line := (⟨stripChars expressive_line.data⟩ : String),
                       Sentiment := sentiment, Intent := intent },
     [(expressive_line, sentimentLabels), (expressive_line, intentLabels)])

/-! ### Task 3: SOAP note generation (lines 84-133 of the source) -/

/-- The prompt f-string of lines 89-97, with the three placeholders filled. -/
def soapPrompt (fieldName fieldDescription context : String) : String :=
  "\n        Based *only* on the following text, provide a concise summary for the \"" ++
    fieldName ++ "\".\n        The \"" ++ fieldName ++ "\" is: " ++ fieldDescription ++
    ".\n        Summarize the key points into a brief, professional statement. If the information is not present in the text, respond with \"Not mentioned\".\n\n        TEXT: \"" ++
    context ++ "\"\n\n        Summary of " ++ fieldName ++ ":\n        "

/-- `_get_soap_field` (lines 84-99).  The generator is an opaque parameter
`gen` from prompt to generated text; the second component of the result is
the list of prompts submitted to it (empty when the empty-context
short-circuit of lines 86-87 fires).  On a generator response the field
value is the response stripped of surrounding whitespace and then of
surrounding double quotes (line 99). -/
def getSoapField (gen : String → String) (context fieldName fieldDescription : String) :
    String × List String :=
  if stripChars context.data = [] then
    ("Not mentioned in the provided context.", [])
  else
    let prompt := soapPrompt fieldName fieldDescription context
    let response := gen prompt
    ((⟨stripBoth (fun c => c == '\x22') (stripChars response.data)⟩ : String), [prompt])

/-- First occurrence search of line 112: everything after the first literal
marker occurrence (DOTALL capture to the end of the text), or none. -/
def subAfter (pat : List Char) : List Char → Option (List Char)
  | [] => none
  | c :: cs =>
    if litStarts pat (c :: cs) then some ((c :: cs).drop pat.length)
    else subAfter pat cs

/-- Lines 112-113: the stripped text after `[Physical Examination Conducted]`,
or the empty string when the marker is absent. -/
def examSliceText (t : String) : String :=
  match subAfter ("[Physical Examination Conducted]".data) t.data with
  | some rest => (⟨stripChars rest⟩ : String)
  | none => ""

structure SoapSubjective where
  Chief_Complaint : String
  History_of_Present_Illness : String
deriving DecidableEq

structure SoapObjective where
  Physical_Exam : String
  Observations : String
deriving DecidableEq

structure SoapAssessment where
  Diagnosis : String
  Prognosis : String
deriving DecidableEq

structure SoapPlan where
  Treatment : String
  Follow_Up : String
deriving DecidableEq

/-- The nested SOAP dictionary of lines 115-132. -/
structure SoapNote where
  Subjective : SoapSubjective
  Objective : SoapObjective
  Assessment : SoapAssessment
  Plan : SoapPlan
deriving DecidableEq

/-- Per-field record of the prompts submitted to the generator, one component
for each of the generator-backed fields of the note. -/
structure SoapTrace where
  chiefComplaint : List String
  historyOfPresentIllness : List String
  physicalExam : List String
  diagnosis : List String
  prognosis : List String
  treatment : List String
  followUp : List String
deriving DecidableEq

/-- `generate_soap_note` (lines 101-133): derive the three context slices,
query one field at a time, and assemble the nested note.  The Observations
field (line 122) is the hardcoded constant of the source. -/
def generate_soap_note (gen : String → String) (t : String) : SoapNote × SoapTrace :=
  let patient_dialogue := getDialogueBySpeaker t "Patient"
  let physician_dialogue := getDialogueBySpeaker t "Physician"
  let objective_text := examSliceText t
  let cc := getSoapField gen patient_dialogue "Chief Complaint"
    "The primary symptoms the patient reports, such as pain."
  let hpi := getSoapField gen patient_dialogue "History of Present Illness"
    "The patient\x27s story of the accident and the progression of their symptoms over time."
  let pe := getSoapField gen objective_text "Physical Exam Findings"
    "The physician\x27s objective findings from the physical examination."
  let diag := getSoapField gen physician_dialogue "Diagnosis"
    "The medical diagnosis given by the physician, such as \x27whiplash injury\x27."
  let prog := getSoapField gen physician_dialogue "Prognosis"
    "The physician\x27s forecast for the patient\x27s recovery."
  let treat := getSoapField gen (patient_dialogue ++ physician_dialogue) "Treatment Plan"
    "The treatments mentioned, such as physiotherapy or painkillers."
  let fup := getSoapField gen physician_dialogue "Follow-Up Plan"
    "Instructions for future appointments or actions if symptoms worsen."
  ({ Subjective := { Chief_Complaint := cc.1, History_of_Present_Illness := hpi.1 },
     Objective := { Physical_Exam := pe.1,
                    Observations := "Patient is alert and oriented, recounts events clearly." },
     Assessment := { Diagnosis := diag.1, Prognosis := prog.1 },
     Plan := { Treatment := treat.1, Follow_Up := fup.1 } },
   { chiefComplaint := cc.2, historyOfPresentIllness := hpi.2, physicalExam := pe.2,
     diagnosis := diag.2, prognosis := prog.2, treatment := treat.2, followUp := fup.2 })

/-- Total number of generator invocations recorded in a trace. -/
def soapCallCount (tr : SoapTrace) : Nat :=
  tr.chiefComplaint.length + tr.historyOfPresentIllness.length + tr.physicalExam.length +
    tr.diagnosis.length + tr.prognosis.length + tr.treatment.length + tr.followUp.length

/-! ### Orchestrator (lines 136-148 of the source) -/

/-- The merged output dictionary of lines 144-148. -/
structure FullAnalysis where
  Medical_Summary : MedicalSummary
  Patient_Sentiment_Analysis : SentimentOut
  Generated_SOAP_Note : SoapNote
deriving DecidableEq

/-- `run_full_analysis` (lines 136-148): run the three stages on the same
transcript and merge the three results.  The classifier-call and
generator-call traces of the two model-backed stages are returned alongside. -/
def run_full_analysis (cls : String → List String → String) (gen : String → String)
    (t : String) : FullAnalysis × List (String × List String) × SoapTrace :=
  let summary := generate_medical_summary t
  let sentiment := analyze_sentiment_intent cls t
  let soap := generate_soap_note gen t
  ({ Medical_Summary := summary,
     Patient_Sentiment_Analysis := sentiment.1,
     Generated_SOAP_Note := soap.1 },
   sentiment.2, soap.2)

/-! ### Helper lemmas about the scanning primitives -/

theorem litStarts_append (p w : List Char) : litStarts p (p ++ w) = true := by
  induction p with
  | nil => rfl
  | cons a ps ih => simp [litStarts, ih]

theorem litStarts_iff (p : List Char) : ∀ l, litStarts p l = true ↔ ∃ w, l = p ++ w := by
  induction p with
  | nil => intro l; simp [litStarts]
  | cons a ps ih =>
    intro l
    cases l with
    | nil => simp [litStarts]
    | cons c cs =>
      simp only [litStarts, Bool.and_eq_true, beq_iff_eq, ih cs, List.cons_append,
        List.cons.injEq]
      constructor
      · rintro ⟨rfl, w, rfl⟩; exact ⟨w, rfl, rfl⟩
      · rintro ⟨w, rfl, rfl⟩; exact ⟨rfl, w, rfl⟩

theorem containsSub_iff (p : List Char) :
    ∀ l, containsSub p l = true ↔ ∃ u w, l = u ++ (p ++ w) := by
  intro l
  induction l with
  | nil =>
    rw [show containsSub p [] = litStarts p [] from rfl, litStarts_iff]
    constructor
    · rintro ⟨w, hw⟩; exact ⟨[], w, hw⟩
    · rintro ⟨u, w, hw⟩
      cases u with
      | nil => exact ⟨w, by simpa using hw⟩
      | cons x xs => simp at hw
  | cons c cs ih =>
    rw [show containsSub p (c :: cs) = (litStarts p (c :: cs) || containsSub p cs) from rfl]
    simp only [Bool.or_eq_true, litStarts_iff, ih]
    constructor
    · rintro (⟨w, hw⟩ | ⟨u, w, hw⟩)
      · exact ⟨[], w, by simpa using hw⟩
      · exact ⟨c :: u, w, by simp [hw]⟩
    · rintro ⟨u, w, hw⟩
      cases u with
      | nil => exact Or.inl ⟨w, by simpa using hw⟩
      | cons x xs =>
        simp only [List.cons_append, List.cons.injEq] at hw
        exact Or.inr ⟨xs, w, hw.2⟩

theorem containsSub_of (p u w l : List Char) (h : l = u ++ (p ++ w)) :
    containsSub p l = true :=
  (containsSub_iff p l).mpr ⟨u, w, h⟩

theorem dotPlusThen_of (pat w : List Char) :
    ∀ v : List Char, v ≠ [] → (∀ c ∈ v, c ≠ '\n') →
      dotPlusThen pat (v ++ (pat ++ w)) = true := by
  intro v
  induction v with
  | nil => intro h; cases h rfl
  | cons c v ih =>
    intro _ hnl
    have hc : (c != '\n') = true := by
      simp only [bne_iff_ne, ne_eq]
      exact hnl c (List.mem_cons_self c v)
    cases v with
    | nil =>
      have hgoal : ((c != '\n') &&
          (litStarts pat (pat ++ w) || dotPlusThen pat (pat ++ w))) = true := by
        rw [hc, litStarts_append, Bool.true_or, Bool.true_and]
      exact hgoal
    | cons d v2 =>
      have hrec := ih (by simp) (fun x hx => hnl x (List.mem_cons_of_mem c hx))
      have hgoal : ((c != '\n') &&
          (litStarts pat ((d :: v2) ++ (pat ++ w)) ||
            dotPlusThen pat ((d :: v2) ++ (pat ++ w)))) = true := by
        rw [hc, hrec, Bool.or_true, Bool.true_and]
      exact hgoal

theorem searchDotPlus_of (pre pat : List Char) (hpre : pre ≠ []) :
    ∀ u v w l : List Char, l = u ++ (pre ++ (v ++ (pat ++ w))) → v ≠ [] →
      (∀ c ∈ v, c ≠ '\n') → searchDotPlus pre pat l = true := by
  intro u
  induction u with
  | nil =>
    intro v w l hl hv hnl
    subst hl
    cases pre with
    | nil => cases hpre rfl
    | cons p ps =>
      have h1 : litStarts (p :: ps) ((p :: ps) ++ (v ++ (pat ++ w))) = true :=
        litStarts_append _ _
      have h2 : dotPlusThen pat
          (((p :: ps) ++ (v ++ (pat ++ w))).drop (p :: ps).length) = true := by
        rw [List.drop_left]
        exact dotPlusThen_of pat w v hv hnl
      have hgoal : ((litStarts (p :: ps) ((p :: ps) ++ (v ++ (pat ++ w))) &&
          dotPlusThen pat (((p :: ps) ++ (v ++ (pat ++ w))).drop (p :: ps).length)) ||
          searchDotPlus (p :: ps) pat (ps ++ (v ++ (pat ++ w)))) = true := by
        rw [h1, h2, Bool.true_and, Bool.true_or]
      exact hgoal
  | cons a u ih =>
    intro v w l hl hv hnl
    subst hl
    simp only [List.cons_append, searchDotPlus, Bool.or_eq_true]
    exact Or.inr (ih v w _ rfl hv hnl)

/-- Characterization of the expressive-line loop of lines 68-72: either it
returns the first keyword-bearing line (all earlier lines keyword-free), or
no line bears a keyword and it returns the default. -/
theorem selectLoop_spec (dflt : String) (pl : List String) :
    (∃ i, ∃ hi : i < pl.length,
        selectLoop dflt pl = pl.get ⟨i, hi⟩ ∧
        hasKeyword (pl.get ⟨i, hi⟩) = true ∧
        ∀ j, ∀ hj : j < pl.length, j < i → hasKeyword (pl.get ⟨j, hj⟩) = false) ∨
      ((∀ l ∈ pl, hasKeyword l = false) ∧ selectLoop dflt pl = dflt) := by
  induction pl with
  | nil => exact Or.inr ⟨by simp, rfl⟩
  | cons a rest ih =>
    by_cases ha : hasKeyword a = true
    · refine Or.inl ⟨0, by simp, ?_, ?_, ?_⟩
      · simp [selectLoop, ha]
      · simpa using ha
      · intro j hj hj0; omega
    · have ha2 : hasKeyword a = false := by
        cases h : hasKeyword a
        · rfl
        · exact absurd h ha
      have hsel : selectLoop dflt (a :: rest) = selectLoop dflt rest := by
        simp [selectLoop, ha2]
      rcases ih with ⟨i, hi, he, hk, hprev⟩ | ⟨hall, he⟩
      · refine Or.inl ⟨i + 1, by simpa using Nat.succ_lt_succ hi, ?_, ?_, ?_⟩
        · rw [hsel, he]; rfl
        · simpa using hk
        · intro j hj hji
          cases j with
          | zero => simpa using ha2
          | succ j2 =>
            have hlt : j2 < i := Nat.lt_of_succ_lt_succ hji
            have hj2 : j2 < rest.length := Nat.lt_of_succ_lt_succ (by simpa using hj)
            simpa using hprev j2 hj2 hlt
      · refine Or.inr ⟨?_, by rw [hsel, he]⟩
        intro l hl
        rcases List.mem_cons.mp hl with rfl | hl2
        · exact ha2
        · exact hall l hl2

/-! ### Per-field normal forms of the rule-based summary -/

theorem gms_Patient_Name (t : String) :
    (generate_medical_summary t).Patient_Name = "Ms. Jones" := by
  simp [generate_medical_summary, apply_ite MedicalSummary.Patient_Name]

theorem gms_Diagnosis (t : String) :
    (generate_medical_summary t).Diagnosis =
      if condWhiplash (lowerList t.data) then "Whiplash injury" else "Not mentioned" := by
  simp [generate_medical_summary, apply_ite MedicalSummary.Diagnosis]

theorem gms_Current_Status (t : String) :
    (generate_medical_summary t).Current_Status =
      if condBackaches (lowerList t.data) then "Occasional backaches" else "Not mentioned" := by
  simp [generate_medical_summary, apply_ite MedicalSummary.Current_Status]

theorem gms_Prognosis (t : String) :
    (generate_medical_summary t).Prognosis =
      if condRecovery (lowerList t.data) then "Full recovery expected within six months"
      else "Not mentioned" := by
  simp [generate_medical_summary, apply_ite MedicalSummary.Prognosis]

theorem gms_Symptoms (t : String) :
    (generate_medical_summary t).Symptoms =
      (if condNeck (lowerList t.data) then ["Neck pain"] else []) ++
      (if condBack (lowerList t.data) then ["Back pain"] else []) ++
      (if condHead (lowerList t.data) then ["Head impact"] else []) := by
  by_cases h1 : condNeck (lowerList t.data) = true <;>
  by_cases h2 : condBack (lowerList t.data) = true <;>
  by_cases h3 : condHead (lowerList t.data) = true <;>
  simp [generate_medical_summary, apply_ite MedicalSummary.Symptoms, h1, h2, h3]

theorem gms_Treatment (t : String) :
    (generate_medical_summary t).Treatment =
      (if condPhysio (lowerList t.data) then ["10 physiotherapy sessions"] else []) ++
      (if condPainkillers (lowerList t.data) then ["Painkillers"] else []) := by
  by_cases h1 : condPhysio (lowerList t.data) = true <;>
  by_cases h2 : condPainkillers (lowerList t.data) = true <;>
  simp [generate_medical_summary, apply_ite MedicalSummary.Treatment, h1, h2]

/-! ### Claim theorems about the rule-based summary -/

/-- C4: a transcript contains the substring "whiplash injury" in some letter
case exactly when its lowercasing contains that lowercase substring; in that
case the Diagnosis field of the rule-based summary is "Whiplash injury", and
otherwise it is the default "Not mentioned". -/
theorem C4_whiplash_diagnosis (t : String) :
    (condWhiplash (lowerList t.data) = true →
      (generate_medical_summary t).Diagnosis = "Whiplash injury") ∧
    (condWhiplash (lowerList t.data) = false →
      (generate_medical_summary t).Diagnosis = "Not mentioned") := by
  refine ⟨fun h => ?_, fun h => ?_⟩ <;> simp [gms_Diagnosis, h]

/-- Witness for C4 at concrete transcripts: one containing "WHIPLASH INJURY"
(in capitals) and one containing no occurrence of the phrase. -/
theorem C4_whiplash_diagnosis_witness :
    (generate_medical_summary "Diagnosed a WHIPLASH INJURY today").Diagnosis =
      "Whiplash injury" ∧
    (generate_medical_summary "all clear").Diagnosis = "Not mentioned" :=
  ⟨(C4_whiplash_diagnosis "Diagnosed a WHIPLASH INJURY today").1 (by decide),
   (C4_whiplash_diagnosis "all clear").2 (by decide)⟩

/-- C5: any transcript containing (case-insensitively) all the listed
phrases satisfies every rule, so the summary has the symptom and treatment
lists in rule-check order together with the matched status and prognosis. -/
theorem C5_end_to_end_summary (t : String)
    (h1 : containsSub ("pain in my neck and back".data) (lowerList t.data) = true)
    (h2 : containsSub ("hit my head".data) (lowerList t.data) = true)
    (h3 : containsSub ("whiplash injury".data) (lowerList t.data) = true)
    (h4 : containsSub ("painkillers".data) (lowerList t.data) = true)
    (h5 : containsSub ("ten sessions of physiotherapy".data) (lowerList t.data) = true)
    (h6 : containsSub ("occasional backaches".data) (lowerList t.data) = true)
    (h7 : containsSub ("full recovery within six months".data) (lowerList t.data) = true) :
    (generate_medical_summary t).Symptoms = ["Neck pain", "Back pain", "Head impact"] ∧
    (generate_medical_summary t).Diagnosis = "Whiplash injury" ∧
    (generate_medical_summary t).Treatment = ["10 physiotherapy sessions", "Painkillers"] ∧
    (generate_medical_summary t).Current_Status = "Occasional backaches" ∧
    (generate_medical_summary t).Prognosis = "Full recovery expected within six months" := by
  obtain ⟨u, w, hl⟩ := (containsSub_iff _ _).mp h1
  have hneck : condNeck (lowerList t.data) = true := by
    have hx : containsSub ("pain in my neck".data) (lowerList t.data) = true := by
      refine containsSub_of _ u (" and back".data ++ w) _ ?_
      rw [hl]
      have hsplit : ("pain in my neck and back".data : List Char) =
          "pain in my neck".data ++ " and back".data := by decide
      rw [hsplit, List.append_assoc]
    simp [condNeck, hx]
  have hback : condBack (lowerList t.data) = true := by
    have hx : searchDotPlus ("pain in my".data) ("back".data) (lowerList t.data) = true := by
      refine searchDotPlus_of _ _ (by decide) u (" neck and ".data) w _ ?_ (by decide)
        (by decide)
      rw [hl]
      have hsplit : ("pain in my neck and back".data : List Char) =
          "pain in my".data ++ (" neck and ".data ++ "back".data) := by decide
      rw [hsplit]
      simp [List.append_assoc]
    simp [condBack, hx]
  refine ⟨?_, ?_, ?_, ?_, ?_⟩
  · rw [gms_Symptoms]; simp [hneck, hback, show condHead (lowerList t.data) = true from h2]
  · rw [gms_Diagnosis]; simp [show condWhiplash (lowerList t.data) = true from h3]
  · rw [gms_Treatment]
    simp [show condPhysio (lowerList t.data) = true from h5,
      show condPainkillers (lowerList t.data) = true from h4]
  · rw [gms_Current_Status]; simp [show condBackaches (lowerList t.data) = true from h6]
  · rw [gms_Prognosis]; simp [show condRecovery (lowerList t.data) = true from h7]

/-- Concrete transcript containing all the C5 phrases. -/
def exC5 : String :=
  "hit my head, pain in my neck and back, whiplash injury, painkillers, ten sessions of physiotherapy, occasional backaches, full recovery within six months"

/-- Witness for C5 at the concrete transcript `exC5`. -/
theorem C5_end_to_end_summary_witness :
    (generate_medical_summary exC5).Symptoms = ["Neck pain", "Back pain", "Head impact"] ∧
    (generate_medical_summary exC5).Diagnosis = "Whiplash injury" ∧
    (generate_medical_summary exC5).Treatment = ["10 physiotherapy sessions", "Painkillers"] ∧
    (generate_medical_summary exC5).Current_Status = "Occasional backaches" ∧
    (generate_medical_summary exC5).Prognosis = "Full recovery expected within six months" :=
  C5_end_to_end_summary exC5 (by decide) (by decide) (by decide) (by decide) (by decide)
    (by decide) (by decide)

/-- C7: the Patient_Name field of the rule-based summary is the constant
"Ms. Jones" for every transcript, even one naming a different patient. -/
theorem C7_patient_name_constant :
    (∀ t : String, (generate_medical_summary t).Patient_Name = "Ms. Jones") ∧
    (generate_medical_summary "Patient: I am Mr. Smith, not Ms. Jones").Patient_Name =
      "Ms. Jones" :=
  ⟨gms_Patient_Name, gms_Patient_Name _⟩

/-- C8: the rule-based summarizer is a pure function of the transcript: two
runs on the same transcript string give identical records, list fields
included. -/
theorem C8_summarizer_pure (t u : String) (h : t = u) :
    generate_medical_summary t = generate_medical_summary u ∧
    (generate_medical_summary t).Symptoms = (generate_medical_summary u).Symptoms ∧
    (generate_medical_summary t).Treatment = (generate_medical_summary u).Treatment := by
  subst h
  exact ⟨rfl, rfl, rfl⟩

/-- Witness for C8 at a concrete transcript. -/
theorem C8_summarizer_pure_witness :
    generate_medical_summary "Patient: hello" = generate_medical_summary "Patient: hello" ∧
    (generate_medical_summary "Patient: hello").Symptoms =
      (generate_medical_summary "Patient: hello").Symptoms ∧
    (generate_medical_summary "Patient: hello").Treatment =
      (generate_medical_summary "Patient: hello").Treatment :=
  C8_summarizer_pure "Patient: hello" "Patient: hello" rfl

/-- C9: the rule summarizer is total (it is a plain function into
MedicalSummary) and every unmatched field keeps its default value: empty
lists for the list fields and "Not mentioned" for the string fields; absence
of a match is not an error. -/
theorem C9_total_with_defaults (t : String) :
    (condNeck (lowerList t.data) = false → condBack (lowerList t.data) = false →
      condHead (lowerList t.data) = false → (generate_medical_summary t).Symptoms = []) ∧
    (condWhiplash (lowerList t.data) = false →
      (generate_medical_summary t).Diagnosis = "Not mentioned") ∧
    (condPhysio (lowerList t.data) = false → condPainkillers (lowerList t.data) = false →
      (generate_medical_summary t).Treatment = []) ∧
    (condBackaches (lowerList t.data) = false →
      (generate_medical_summary t).Current_Status = "Not mentioned") ∧
    (condRecovery (lowerList t.data) = false →
      (generate_medical_summary t).Prognosis = "Not mentioned") ∧
    (generate_medical_summary t).Patient_Name = "Ms. Jones" := by
  refine ⟨fun a b c => ?_, fun a => ?_, fun a b => ?_, fun a => ?_, fun a => ?_,
    gms_Patient_Name t⟩
  · rw [gms_Symptoms]; simp [a, b, c]
  · rw [gms_Diagnosis]; simp [a]
  · rw [gms_Treatment]; simp [a, b]
  · rw [gms_Current_Status]; simp [a]
  · rw [gms_Prognosis]; simp [a]

/-- Witness for C9 at a malformed transcript with no speaker labels and no
rule matches: every field is its default. -/
theorem C9_total_with_defaults_witness :
    (generate_medical_summary "mmm").Symptoms = [] ∧
    (generate_medical_summary "mmm").Diagnosis = "Not mentioned" ∧
    (generate_medical_summary "mmm").Treatment = [] ∧
    (generate_medical_summary "mmm").Current_Status = "Not mentioned" ∧
    (generate_medical_summary "mmm").Prognosis = "Not mentioned" :=
  ⟨(C9_total_with_defaults "mmm").1 (by decide) (by decide) (by decide),
   (C9_total_with_defaults "mmm").2.1 (by decide),
   (C9_total_with_defaults "mmm").2.2.1 (by decide) (by decide),
   (C9_total_with_defaults "mmm").2.2.2.1 (by decide),
   (C9_total_with_defaults "mmm").2.2.2.2.1 (by decide)⟩

/-! ### Claim theorems about the sentiment stage -/

/-- The three-patient-line transcript of the C1 tie-break example. -/
def exC1 : String :=
  "Patient: I am fine\nPatient: I am worried about this\nPatient: ok bye"

/-- C1: whenever at least one patient line exists, the sentiment stage runs
the classifier on exactly one selected line: the first patient line (in
transcript order) containing a keyword of the fixed set, all earlier lines
being keyword-free, or, when no line contains a keyword, the last patient
line.  In particular, on patient lines ["I am fine", "I am worried about
this", "ok bye"] the "worried" line is selected. -/
theorem C1_expressive_line_selection :
    (∀ (cls : String → List String → String) (t : String), patientLines t ≠ [] →
      ∃ sel : String,
        (analyze_sentiment_intent cls t).1 =
          SentimentOut.ok { Analyzed_Line := (⟨stripChars sel.data⟩ : String),
                            Sentiment := cls sel sentimentLabels,
                            Intent := cls sel intentLabels } ∧
        ((∃ i, ∃ hi : i < (patientLines t).length,
            sel = (patientLines t).get ⟨i, hi⟩ ∧
            hasKeyword ((patientLines t).get ⟨i, hi⟩) = true ∧
            ∀ j, ∀ hj : j < (patientLines t).length, j < i →
              hasKeyword ((patientLines t).get ⟨j, hj⟩) = false) ∨
          ((∀ l ∈ patientLines t, hasKeyword l = false) ∧
            sel = (patientLines t).getLastD ""))) ∧
    (patientLines exC1 = ["I am fine", "I am worried about this", "ok bye"] ∧
      ∀ cls : String → List String → String,
        (analyze_sentiment_intent cls exC1).1 =
          SentimentOut.ok { Analyzed_Line := "I am worried about this",
                            Sentiment := cls "I am worried about this" sentimentLabels,
                            Intent := cls "I am worried about this" intentLabels }) := by
  refine ⟨fun cls t h => ?_, by decide, fun cls => ?_⟩
  · refine ⟨selectLoop ((patientLines t).getLastD "") (patientLines t), ?_,
      selectLoop_spec _ _⟩
    simp only [analyze_sentiment_intent]
    rw [if_neg h]
  · rfl

/-- Witness for C1: the concrete example transcript with a constant
classifier. -/
theorem C1_expressive_line_selection_witness :
    ∃ sel : String,
      (analyze_sentiment_intent (fun _ _ => "Top") exC1).1 =
        SentimentOut.ok { Analyzed_Line := (⟨stripChars sel.data⟩ : String),
                          Sentiment := (fun _ _ => "Top") sel sentimentLabels,
                          Intent := (fun _ _ => "Top") sel intentLabels } ∧
      ((∃ i, ∃ hi : i < (patientLines exC1).length,
          sel = (patientLines exC1).get ⟨i, hi⟩ ∧
          hasKeyword ((patientLines exC1).get ⟨i, hi⟩) = true ∧
          ∀ j, ∀ hj : j < (patientLines exC1).length, j < i →
            hasKeyword ((patientLines exC1).get ⟨j, hj⟩) = false) ∨
        ((∀ l ∈ patientLines exC1, hasKeyword l = false) ∧
          sel = (patientLines exC1).getLastD "")) :=
  C1_expressive_line_selection.1 (fun _ _ => "Top") exC1 (by decide)

/-- C2: with zero patient-pattern lines the sentiment stage returns the
error-field result without invoking the classifier, and the full run still
returns the summary and SOAP sections computed from the same transcript. -/
theorem C2_no_patient_dialogue (cls : String → List String → String)
    (gen : String → String) (t : String) (h : patientLines t = []) :
    (run_full_analysis cls gen t).1.Patient_Sentiment_Analysis =
      SentimentOut.err "No patient dialogue found." ∧
    (run_full_analysis cls gen t).2.1 = [] ∧
    (run_full_analysis cls gen t).1.Medical_Summary = generate_medical_summary t ∧
    (run_full_analysis cls gen t).1.Generated_SOAP_Note = (generate_soap_note gen t).1 := by
  refine ⟨?_, ?_, rfl, rfl⟩ <;>
    simp [run_full_analysis, analyze_sentiment_intent, h]

/-- Witness for C2 at a transcript with no speaker labels at all. -/
theorem C2_no_patient_dialogue_witness :
    (run_full_analysis (fun _ _ => "Top") (fun _ => "Gen")
        "hello there").1.Patient_Sentiment_Analysis =
      SentimentOut.err "No patient dialogue found." ∧
    (run_full_analysis (fun _ _ => "Top") (fun _ => "Gen") "hello there").2.1 = [] ∧
    (run_full_analysis (fun _ _ => "Top") (fun _ => "Gen") "hello there").1.Medical_Summary =
      generate_medical_summary "hello there" ∧
    (run_full_analysis (fun _ _ => "Top") (fun _ => "Gen")
        "hello there").1.Generated_SOAP_Note =
      (generate_soap_note (fun _ => "Gen") "hello there").1 :=
  C2_no_patient_dialogue _ _ _ (by decide)

/-! ### Claim theorems about the SOAP composer -/

/-- C3: a whitespace-only context slice short-circuits `_get_soap_field` to
the sentinel string with zero generator calls; in particular a transcript
with no physician-attributed lines gives Plan.Follow-Up equal to the
sentinel with an empty generator trace for that field. -/
theorem C3_empty_context_sentinel :
    (∀ (gen : String → String) (context fieldName fieldDescription : String),
        stripChars context.data = [] →
        getSoapField gen context fieldName fieldDescription =
          ("Not mentioned in the provided context.", [])) ∧
    (∀ (gen : String → String) (t : String),
        findallSpeaker "Physician" t = [] →
        (generate_soap_note gen t).1.Plan.Follow_Up =
          "Not mentioned in the provided context." ∧
        (generate_soap_note gen t).2.followUp = []) := by
  constructor
  · intro gen context n d h
    simp [getSoapField, h]
  · intro gen t h
    have hd : getDialogueBySpeaker t "Physician" = "" := by
      rw [getDialogueBySpeaker, h]
      rfl
    have h0 : stripChars ("" : String).data = [] := rfl
    constructor <;> simp [generate_soap_note, hd, getSoapField, h0]

/-- Witness for C3: a whitespace-only context, and a transcript with a
patient line but no physician line. -/
theorem C3_empty_context_sentinel_witness :
    getSoapField (fun _ => "Gen") "   " "Chief Complaint" "desc" =
      ("Not mentioned in the provided context.", []) ∧
    ((generate_soap_note (fun _ => "Gen") "Patient: hi").1.Plan.Follow_Up =
        "Not mentioned in the provided context." ∧
      (generate_soap_note (fun _ => "Gen") "Patient: hi").2.followUp = []) :=
  ⟨C3_empty_context_sentinel.1 _ _ _ _ (by decide),
   C3_empty_context_sentinel.2 _ _ (by decide)⟩

/-- C6 (amended): each of the seven generated SOAP fields — not six as the
claim counts them — is produced from exactly the context slice the table
assigns it (patient text for Chief Complaint and History of Present Illness,
the exam slice for Physical Exam Findings, physician text for Diagnosis,
Prognosis and Follow-Up Plan, and patient text concatenated with physician
text for Treatment Plan), and Objective.Observations is a hardcoded
constant independent of both the generator and the transcript. -/
theorem C6_soap_context_mapping :
    (∀ (gen : String → String) (t : String),
      (generate_soap_note gen t).1.Subjective.Chief_Complaint =
        (getSoapField gen (getDialogueBySpeaker t "Patient") "Chief Complaint"
          "The primary symptoms the patient reports, such as pain.").1 ∧
      (generate_soap_note gen t).1.Subjective.History_of_Present_Illness =
        (getSoapField gen (getDialogueBySpeaker t "Patient") "History of Present Illness"
          "The patient\x27s story of the accident and the progression of their symptoms over time.").1 ∧
      (generate_soap_note gen t).1.Objective.Physical_Exam =
        (getSoapField gen (examSliceText t) "Physical Exam Findings"
          "The physician\x27s objective findings from the physical examination.").1 ∧
      (generate_soap_note gen t).1.Assessment.Diagnosis =
        (getSoapField gen (getDialogueBySpeaker t "Physician") "Diagnosis"
          "The medical diagnosis given by the physician, such as \x27whiplash injury\x27.").1 ∧
      (generate_soap_note gen t).1.Assessment.Prognosis =
        (getSoapField gen (getDialogueBySpeaker t "Physician") "Prognosis"
          "The physician\x27s forecast for the patient\x27s recovery.").1 ∧
      (generate_soap_note gen t).1.Plan.Treatment =
        (getSoapField gen
          (getDialogueBySpeaker t "Patient" ++ getDialogueBySpeaker t "Physician")
          "Treatment Plan"
          "The treatments mentioned, such as physiotherapy or painkillers.").1 ∧
      (generate_soap_note gen t).1.Plan.Follow_Up =
        (getSoapField gen (getDialogueBySpeaker t "Physician") "Follow-Up Plan"
          "Instructions for future appointments or actions if symptoms worsen.").1 ∧
      (generate_soap_note gen t).1.Objective.Observations =
        "Patient is alert and oriented, recounts events clearly.") ∧
    (∀ (gen gen2 : String → String) (t t2 : String),
      (generate_soap_note gen t).1.Objective.Observations =
        (generate_soap_note gen2 t2).1.Objective.Observations) :=
  ⟨fun _ _ => ⟨rfl, rfl, rfl, rfl, rfl, rfl, rfl, rfl⟩, fun _ _ _ _ => rfl⟩

/-- Transcript on which all three SOAP context slices are nonempty. -/
def exC6 : String :=
  "Patient: my neck hurts\nPhysician: whiplash likely\n[Physical Examination Conducted]\nfull range of motion"

/-- C6 counterexample to the claimed count of six: at a transcript where all
three context slices are nonempty, the composer submits one prompt to the
generation capability for each generator-backed field, and that total is
seven, not six. -/
theorem C6_counterexample :
    soapCallCount (generate_soap_note (fun _ => "Gen") exC6).2 = 7 ∧
    soapCallCount (generate_soap_note (fun _ => "Gen") exC6).2 ≠ 6 := by
  constructor <;> decide

/-! ### Claim theorem about speaker-label matching -/

/-- Transcript with a case-variant patient label in the middle of a
physician line. -/
def exC10 : String :=
  "Physician: earlier the PATIENT: says the neck hurts\nPatient: ok"

/-- C10: the patient-speaker pattern is matched case-insensitively at any
position in a line: the text after the mid-line occurrence "PATIENT:"
inside a physician utterance is extracted as a patient utterance, both by
the line extraction used by the sentiment stage and by the dialogue join
used for the SOAP context slices. -/
theorem C10_midline_speaker_match :
    patientLines exC10 = ["says the neck hurts", "ok"] ∧
    getDialogueBySpeaker exC10 "Patient" = "says the neck hurts ok" := by
  constructor <;> decide
